import Mathlib

/-!
Shallow embedding of the program in src/red_lines.py (classes DetroitDistrict
and RedLines) and proofs about it.

Embedding conventions:

* Geographic coordinates are embedded as exact integers counted in thousandths
  of a degree.  Every numeric constant of the sampling grid in the source
  (start -83.5 and 42.1, stop -82.8 and 42.6, step 0.004) is an exact multiple
  of 0.001, so the grid of `np.arange`/`np.meshgrid` is represented exactly:
  -83.5 becomes -83500, the step 0.004 becomes 4, and so on.  Floating-point
  rounding of the source is idealized away; no claim below depends on it.
* JSON values handled by the program (the parsed redlining file and the parsed
  census responses) are embedded as the inductive type `PyVal`; Python
  subscripting, iteration and exceptions are embedded by `Except PyErr`.
* The two external collaborators that the source calls but does not define are
  parameters of the embedded operations: the point-in-polygon test of
  `matplotlib.path.Path.contains_points` is a parameter `c : PointTest`, and
  the stream of draws of the seeded global `random` generator is a parameter
  `rng : Nat → Nat` (the k-th call of `random.choice` on a sequence of length
  n picks the element at index `rng k % n`).  HTTP responses are likewise
  inputs: `fetchCensus` receives the response of its k-th request keyed by the
  latitude and longitude it sends, and `fetchIncome` receives the single batch
  response.
* Functions that only print or draw (`print`, `plotDistricts`) are embedded by
  their effect on the catalog state, which is none.
-/

set_option maxRecDepth 8000

namespace RedLining

/-- Python values as they appear in the JSON data handled by the program.
Numbers are idealized as exact integers (coordinates in thousandths of a
degree, see the file header). -/
inductive PyVal where
  | pynone : PyVal
  | num : Int → PyVal
  | str : String → PyVal
  | list : List PyVal → PyVal
  | dict : List (String × PyVal) → PyVal

/-- Python exceptions that the subscript and iteration operations used by
createDistricts can raise, plus the two failure modes of opening and parsing
the input file. -/
inductive PyErr where
  | keyError : String → PyErr
  | indexError : PyErr
  | typeError : PyErr
  | fileNotFound : PyErr
  | jsonDecode : PyErr
deriving DecidableEq

/-- Python subscript v[k] with a string key: dictionary lookup raising
KeyError when the key is missing, TypeError when the value is not
subscriptable. -/
def PyVal.getItem : PyVal → String → Except PyErr PyVal
  | .dict kvs, k =>
    match kvs.lookup k with
    | some v => .ok v
    | none => .error (.keyError k)
  | _, _ => .error .typeError

/-- Python subscript v[i] with a nonnegative integer index: list and string
indexing raising IndexError when out of range; an integer subscript of a
string-keyed dictionary raises KeyError. -/
def PyVal.getIdx : PyVal → Nat → Except PyErr PyVal
  | .list xs, i =>
    match xs.get? i with
    | some v => .ok v
    | none => .error .indexError
  | .str s, i =>
    match s.data.get? i with
    | some ch => .ok (.str (String.mk [ch]))
    | none => .error .indexError
  | .dict _, _ => .error (.keyError "int")
  | _, _ => .error .typeError

/-- Python iteration (for x in v): lists yield their elements, strings their
characters, dictionaries their keys; other values raise TypeError. -/
def pyIter : PyVal → Except PyErr (List PyVal)
  | .list xs => .ok xs
  | .str s => .ok (s.data.map (fun ch => PyVal.str (String.mk [ch])))
  | .dict kvs => .ok (kvs.map (fun kv => PyVal.str kv.1))
  | _ => .error .typeError

/-- One district record (class DetroitDistrict, src/red_lines.py lines 71-87).
The attributes set by __init__, with the derived and optional attributes
typed as options: randomLat and randomLong in thousandths of a degree. -/
structure DetroitDistrict where
  coordinates : PyVal
  holcGrade : PyVal
  id : PyVal
  description : PyVal
  holcColor : String
  randomLat : Option Int
  randomLong : Option Int
  medIncome : Option Int
  censusTract : Option String

/-- The color_map dictionary lookup color_map.get(holcGrade, grey) of
DetroitDistrict.__init__ (lines 81-87). -/
def colorMapGet (g : PyVal) : String :=
  match g with
  | .str s =>
    if s = "A" then "darkgreen"
    else if s = "B" then "cornflowerblue"
    else if s = "C" then "gold"
    else if s = "D" then "maroon"
    else "grey"
  | _ => "grey"

/-- DetroitDistrict.__init__ (lines 71-87).  The holcColor argument is kept
when it is truthy (a non-empty string); otherwise the color is derived from
the grade through color_map. -/
def districtInit (coordinates holcGrade id description : PyVal)
    (holcColor : Option String) (randomLat randomLong : Option Int)
    (medIncome : Option Int) (censusTract : Option String) : DetroitDistrict :=
  { coordinates := coordinates
    holcGrade := holcGrade
    id := id
    description := description
    holcColor :=
      match holcColor with
      | some col => if col = "" then colorMapGet holcGrade else col
      | none => colorMapGet holcGrade
    randomLat := randomLat
    randomLong := randomLong
    medIncome := medIncome
    censusTract := censusTract }

/-- Default district used by positional lookups (List.getD); never reachable
in bounds-checked statements. -/
def dummyDistrict : DetroitDistrict :=
  districtInit .pynone .pynone .pynone .pynone none none none none none

/-- The catalog (class RedLines): it owns the list of districts. -/
structure RedLines where
  districts : List DetroitDistrict

/-- RedLines.__init__ (line 107): the catalog starts with no districts. -/
def redLinesInit : RedLines := ⟨[]⟩

/-- Parsing of one feature of the input file into a district
(createDistricts loop body, lines 132-140).  Subscript failures propagate;
the DetroitDistrict is only constructed after every lookup succeeded. -/
def parseFeature (district_data : PyVal) : Except PyErr DetroitDistrict := do
  let properties ← district_data.getItem "properties"
  let geometry ← district_data.getItem "geometry"
  let coordsOuter ← geometry.getItem "coordinates"
  let coordinates ← coordsOuter.getIdx 0
  let coords0 ← coordinates.getIdx 0
  let holc_grade ← properties.getItem "holc_grade"
  let holc_id ← properties.getItem "holc_id"
  let area_description ← properties.getItem "area_description_data"
  let description ← area_description.getItem "8"
  .ok (districtInit coords0 holc_grade holc_id description none none none none none)

/-- The for-loop of createDistricts (lines 132-141): districts successfully
parsed so far are appended to the accumulator one by one; the first parse
failure stops the loop with the exception, keeping what was appended. -/
def createLoop : List DetroitDistrict → List PyVal → List DetroitDistrict × Option PyErr
  | acc, [] => (acc, none)
  | acc, f :: fs =>
    match parseFeature f with
    | .ok d => createLoop (acc ++ [d]) fs
    | .error e => (acc, some e)

/-- RedLines.createDistricts (lines 110-141).  The file argument is the
outcome of open + json.load: an exception (absent file, invalid JSON) or the
parsed JSON value.  The result pairs the catalog state after the call with
the exception that propagated, if any.  Note that the loop appends to
self.districts without clearing it first. -/
def createDistricts (self : RedLines) (file : Except PyErr PyVal) :
    RedLines × Option PyErr :=
  match file with
  | .error e => (self, some e)
  | .ok data =>
    match data.getItem "features" with
    | .error e => (self, some e)
    | .ok v =>
      match pyIter v with
      | .error e => (self, some e)
      | .ok fs =>
        (⟨(createLoop self.districts fs).1⟩, (createLoop self.districts fs).2)

/-- All-or-nothing parse of a feature list: some when every feature parses.
Used to state properties of createDistricts. -/
def parseOks : List PyVal → Option (List DetroitDistrict)
  | [] => some []
  | f :: fs =>
    match parseFeature f with
    | .ok d => (parseOks fs).map (fun ds => d :: ds)
    | .error _ => none

/-- The features a file input would be iterated over, for stating which
features contributed districts. -/
def featuresOf (file : Except PyErr PyVal) : List PyVal :=
  match file with
  | .ok data =>
    match data.getItem "features" with
    | .ok v =>
      match pyIter v with
      | .ok fs => fs
      | .error _ => []
    | .error _ => []
  | .error _ => []

/-- xgrid = np.arange(-83.5, -82.8, 0.004) in thousandths of a degree:
175 longitudes from -83500 in steps of 4 (last one -82804). -/
def xgrid : List Int := (List.range 175).map (fun i => -83500 + 4 * (i : Int))

/-- ygrid = np.arange(42.1, 42.6, 0.004) in thousandths of a degree:
125 latitudes from 42100 in steps of 4 (last one 42596). -/
def ygrid : List Int := (List.range 125).map (fun i => 42100 + 4 * (i : Int))

/-- np.meshgrid followed by flatten and vstack(...).T (lines 179-180): all
pairs (x, y), rows of the mesh (fixed y) in order. -/
def meshPoints : List Int → List Int → List (Int × Int)
  | [], _ => []
  | y :: ys, xs => xs.map (fun x => (x, y)) ++ meshPoints ys xs

/-- The fixed candidate grid of generateRandPoint (the points array). -/
def samplePoints : List (Int × Int) := meshPoints ygrid xgrid

/-- Test isinstance(coord, list) and len(coord) == 2 for one element of the
coordinates attribute (line 183). -/
def isTwoList : PyVal → Bool
  | .list [_, _] => true
  | _ => false

/-- The shape guard of line 183: the coordinates attribute is a list in which
every element is a two-element list. -/
def coordsOk : PyVal → Bool
  | .list xs => xs.all isTwoList
  | _ => false

/-- Conversion of one coordinate pair to the vertex handed to
matplotlib.path.Path; only applied under the shape guard. -/
def toPair : PyVal → Int × Int
  | .list [.num a, .num b] => (a, b)
  | _ => (0, 0)

/-- Conversion of the coordinates attribute to the vertex list handed to
matplotlib.path.Path (line 184). -/
def toPoly : PyVal → List (Int × Int)
  | .list xs => xs.map toPair
  | _ => []

/-- The point-in-polygon test of Path.contains_points, an external library
routine, as an abstract parameter: given the polygon vertices and a point, it
answers whether the point is strictly inside. -/
abbrev PointTest := List (Int × Int) → Int × Int → Bool

/-- valid_points (lines 184-186): the grid points that pass the district
polygon point-in-polygon test, in grid order. -/
def validPoints (c : PointTest) (d : DetroitDistrict) : List (Int × Int) :=
  samplePoints.filter (c (toPoly d.coordinates))

/-- random.choice(valid_points) given the draw r of the seeded generator:
the element at index r % length (the draw is uniform below the length, which
the modulus realizes for an abstract draw).  Only called on a non-empty
sequence, so the default is never reachable there. -/
def pickPoint (valid : List (Int × Int)) (r : Nat) : Int × Int :=
  valid.getD (r % valid.length) (0, 0)

/-- The assignment of lines 188-190: district.randomLong = point[0] and
district.randomLat = point[1] for the chosen point. -/
def assignPoint (c : PointTest) (d : DetroitDistrict) (r : Nat) : DetroitDistrict :=
  { d with
      randomLong := some (pickPoint (validPoints c d) r).1
      randomLat := some (pickPoint (validPoints c d) r).2 }

/-- The for-loop of generateRandPoint (lines 182-191).  The counter k numbers
the random.choice draws consumed so far; a skipped district (failing shape
guard or with no interior grid point) consumes no draw. -/
def sampleLoop (c : PointTest) (rng : Nat → Nat) :
    Nat → List DetroitDistrict → List DetroitDistrict
  | _, [] => []
  | k, d :: ds =>
    if coordsOk d.coordinates = true then
      if 0 < (validPoints c d).length then
        assignPoint c d (rng k) :: sampleLoop c rng (k + 1) ds
      else
        d :: sampleLoop c rng k ds
    else
      d :: sampleLoop c rng k ds

/-- RedLines.generateRandPoint (lines 159-191), parameterized by the
point-in-polygon test and the random draw stream. -/
def generateRandPoint (c : PointTest) (rng : Nat → Nat) (self : RedLines) :
    RedLines :=
  ⟨sampleLoop c rng 0 self.districts⟩

/-- Execution relation of the generateRandPoint loop: SampleR c rng k ds out
holds when one run of the loop over districts ds, with k draws already
consumed, can produce out.  It mirrors lines 182-191 step by step. -/
inductive SampleR (c : PointTest) (rng : Nat → Nat) :
    Nat → List DetroitDistrict → List DetroitDistrict → Prop where
  | nil (k : Nat) : SampleR c rng k [] []
  | skipShape (k : Nat) (d : DetroitDistrict) (ds out : List DetroitDistrict) :
      coordsOk d.coordinates = false → SampleR c rng k ds out →
      SampleR c rng k (d :: ds) (d :: out)
  | skipEmpty (k : Nat) (d : DetroitDistrict) (ds out : List DetroitDistrict) :
      coordsOk d.coordinates = true → validPoints c d = [] →
      SampleR c rng k ds out → SampleR c rng k (d :: ds) (d :: out)
  | assign (k : Nat) (d : DetroitDistrict) (ds out : List DetroitDistrict) :
      coordsOk d.coordinates = true → validPoints c d ≠ [] →
      SampleR c rng (k + 1) ds out →
      SampleR c rng k (d :: ds) (assignPoint c d (rng k) :: out)

/-- One HTTP response of the FCC area lookup used by fetchCensus. -/
structure CensusResponse where
  status : Nat
  body : PyVal

/-- Python string slice s[2:11] and, in general, s[a:b]. -/
def pySlice (s : String) (a b : Nat) : String :=
  String.mk ((s.data.drop a).take (b - a))

/-- Extraction of the tract from a 200 response body (lines 234-236): when
the results key is present with a non-empty list whose first entry carries a
block_fips string, the slice [2:11] of that string; otherwise nothing. -/
def censusExtract (body : PyVal) : Option String :=
  match body with
  | .dict kvs =>
    match kvs.lookup "results" with
    | some (.list (r :: _)) =>
      match r with
      | .dict kvs2 =>
        match kvs2.lookup "block_fips" with
        | some (.str s) => some (pySlice s 2 11)
        | _ => none
      | _ => none
    | _ => none
  | _ => none

/-- The for-loop of fetchCensus (lines 224-236).  For each district whose
randomLat and randomLong are both set, one request keyed by that latitude and
longitude is issued (responses k la lo is the answer to the k-th request of
the run); on status 200 the tract is extracted and stored, otherwise the
district is left as it is.  No request is re-issued. -/
def fetchCensusLoop (responses : Nat → Int → Int → CensusResponse) :
    Nat → List DetroitDistrict → List DetroitDistrict
  | _, [] => []
  | k, d :: ds =>
    match d.randomLat, d.randomLong with
    | some la, some lo =>
      (if (responses k la lo).status = 200 then
        match censusExtract (responses k la lo).body with
        | some t => { d with censusTract := some t }
        | none => d
      else d) :: fetchCensusLoop responses (k + 1) ds
    | some _, none => d :: fetchCensusLoop responses k ds
    | none, _ => d :: fetchCensusLoop responses k ds

/-- RedLines.fetchCensus (lines 194-236), parameterized by the responses of
the external service. -/
def fetchCensus (self : RedLines) (responses : Nat → Int → Int → CensusResponse) :
    RedLines :=
  ⟨fetchCensusLoop responses 0 self.districts⟩

/-- The single batched response of the ACS income lookup used by fetchIncome:
a status and the parsed JSON rows (each row a list of strings, the income
figure at index 0, county at index 2 and tract at index 3; row 0 is the
header). -/
structure IncomeResponse where
  status : Nat
  rows : List (List String)

/-- Python int() on the decimal string representations produced by the ACS
service (an optional leading minus sign followed by digits). -/
def pyInt (s : String) : Int :=
  match s.data with
  | '-' :: ds => -((ds.foldl (fun acc ch => acc * 10 + (ch.toNat - 48)) 0 : Nat) : Int)
  | ds => ((ds.foldl (fun acc ch => acc * 10 + (ch.toNat - 48)) 0 : Nat) : Int)

/-- One entry of the income_data dictionary comprehension (line 267): key
item[2] + item[3], value int(item[0]) unless the no-data sentinel -666666666,
which is normalized to 0. -/
def incomeEntry (item : List String) : String × Int :=
  (item.getD 2 "" ++ item.getD 3 "",
   if item.getD 0 "" = "-666666666" then 0 else pyInt (item.getD 0 ""))

/-- The income_data dictionary of line 267, built from every row after the
header. -/
def incomeMap (rows : List (List String)) : List (String × Int) :=
  (rows.drop 1).map incomeEntry

/-- Lookup in the comprehension-built dictionary: the value of the last entry
with the given key, as in a Python dict where a later duplicate key
overwrites an earlier one. -/
def dictLookup (m : List (String × Int)) (k : String) : Option Int :=
  List.lookup k m.reverse

/-- The per-district assignment of lines 269-275: the mapped income when the
district tract is a key of income_data, otherwise 0 (an unset tract is never
a key). -/
def assignIncome (m : List (String × Int)) (d : DetroitDistrict) :
    DetroitDistrict :=
  match d.censusTract with
  | some t =>
    match dictLookup m t with
    | some v => { d with medIncome := some v }
    | none => { d with medIncome := some 0 }
  | none => { d with medIncome := some 0 }

/-- RedLines.fetchIncome (lines 238-277), parameterized by the batch
response.  On status 200 every district receives the income its tract maps
to, 0 when the tract (or an unset tract) is absent from the mapping; on any
other status only a diagnostic is printed and the state is unchanged. -/
def fetchIncome (self : RedLines) (resp : IncomeResponse) : RedLines :=
  if resp.status = 200 then
    ⟨self.districts.map (assignIncome (incomeMap resp.rows))⟩
  else self

/-- RedLines.plotDistricts (lines 143-157) only draws and writes an image;
the catalog state is untouched. -/
def plotDistricts (self : RedLines) : RedLines := self

/-- RedLines.calcRank (lines 361-385): the body is pass. -/
def calcRank (self : RedLines) : RedLines := self

/-- RedLines.calcPopu (lines 387-411): the body is pass. -/
def calcPopu (self : RedLines) : RedLines := self

/-- RedLines.cacheData (lines 279-293): the body is pass. -/
def cacheData (self : RedLines) (fileName : String) : RedLines := self

/-- RedLines.loadCache (lines 295-310): the body is pass. -/
def loadCache (self : RedLines) (fileName : String) : RedLines := self

/-! Concrete inputs used by counterexamples and witnesses. -/

/-- A district that already carries a sampled point (lat 42.300, lon -83.100
in thousandths of a degree). -/
def examplePointDistrict : DetroitDistrict :=
  districtInit (.list []) (.str "A") (.str "A1") (.str "example") none
    (some 42300) (some (-83100)) none none

/-- A response stream whose first answer is a failure (status 503) and whose
every later answer is a success carrying a well-formed tract payload. -/
def flakyResponses : Nat → Int → Int → CensusResponse := fun k _ _ =>
  if k = 0 then ⟨503, .pynone⟩
  else ⟨200, .dict [("results", .list [.dict [("block_fips", .str "26163511100")]])]⟩

/-- Catalog used by the C4 witness: a district whose tract is in the batch,
one whose tract is absent, and one with no tract. -/
def exampleIncomeCatalog : RedLines := ⟨[
  districtInit .pynone (.str "A") (.str "A1") .pynone none none none none
    (some "163511100"),
  districtInit .pynone (.str "B") (.str "B2") .pynone none none none none
    (some "999999999"),
  districtInit .pynone (.str "C") (.str "C3") .pynone none none none none
    none]⟩

/-- Batch response used by the C4 witness: a header row, one ordinary row
and one sentinel row. -/
def exampleIncomeResponse : IncomeResponse :=
  ⟨200, [["B19013_001E", "state", "county", "tract"],
         ["31250", "26", "163", "511100"],
         ["-666666666", "26", "165", "000100"]]⟩

/-- A point-in-polygon test that accepts every point. -/
def alwaysInside : PointTest := fun _ _ => true

/-- A point-in-polygon test that rejects every point. -/
def alwaysOutside : PointTest := fun _ _ => false

/-- The all-zero draw stream. -/
def zeroDraws : Nat → Nat := fun _ => 0

/-- A district with a well-shaped triangular boundary (coordinates in
thousandths of a degree). -/
def exampleTriangle : DetroitDistrict :=
  districtInit (.list [.list [.num (-83200), .num 42350],
      .list [.num (-83100), .num 42350], .list [.num (-83150), .num 42400]])
    (.str "C") (.str "C3") (.str "example") none none none none none

/-- A district with a well-shaped square boundary. -/
def exampleSquare : DetroitDistrict :=
  districtInit (.list [.list [.num (-83200), .num 42350],
      .list [.num (-83100), .num 42350], .list [.num (-83100), .num 42450],
      .list [.num (-83200), .num 42450]])
    (.str "D") (.str "D4") (.str "example") none none none none none

/-- A district whose coordinates attribute is not a list of two-element
lists, so the shape guard of line 183 rejects it. -/
def exampleBadCoords : DetroitDistrict :=
  districtInit .pynone (.str "E") (.str "E5") (.str "example") none none none
    none none

/-- The ring of vertex pairs of the well-formed example feature. -/
def exampleRing : PyVal :=
  .list [.list [.num (-83200), .num 42350], .list [.num (-83100), .num 42350],
    .list [.num (-83150), .num 42400]]

/-- A well-formed feature of the input file: properties with grade,
identifier and keyed description, and a geometry whose coordinates nest the
ring twice, as createDistricts expects. -/
def exampleGoodFeature : PyVal :=
  .dict [("properties", .dict [("holc_grade", .str "A"), ("holc_id", .str "A1"),
           ("area_description_data", .dict [("8", .str "narrative")])]),
         ("geometry", .dict [("coordinates", .list [.list [exampleRing]])])]

/-- The district that parsing the well-formed example feature produces. -/
def exampleGoodDistrict : DetroitDistrict :=
  districtInit exampleRing (.str "A") (.str "A1") (.str "narrative") none none
    none none none

/-- A malformed feature: its properties lack the required holc_grade key. -/
def exampleBadFeature : PyVal :=
  .dict [("properties", .dict [("holc_id", .str "B2"),
           ("area_description_data", .dict [("8", .str "text")])]),
         ("geometry", .dict [("coordinates", .list [.list [exampleRing]])])]

/-- A parsed input file whose second feature is malformed. -/
def exampleFile : Except PyErr PyVal :=
  .ok (.dict [("features", .list [exampleGoodFeature, exampleBadFeature])])

/-- The failure modes the load claim quantifies over: the file is absent or
not valid JSON (the exception of open + json.load), the features key is
missing, or some feature fails to parse (for instance, lacks a required
property key). -/
def loadMalformed (file : Except PyErr PyVal) : Prop :=
  (∃ e, file = .error e) ∨
  (∃ data e, file = .ok data ∧ data.getItem "features" = .error e) ∨
  (∃ data fs, file = .ok data ∧ data.getItem "features" = .ok (.list fs) ∧
    ∃ f, f ∈ fs ∧ ∃ e, parseFeature f = .error e)

/-- What the sampler claim asserts of district i of the catalog: the
assigned point is a candidate grid point, it passes the point-in-polygon
test for the district polygon (so it is among the grid points inside), it is
the element the draw selects from the list of all interior grid points with
every index of that list attainable by some draw stream, and its latitude
and longitude survive every subsequent catalog operation (tract enrichment,
income enrichment and the stubbed rank, population, cache-save and
cache-load steps). -/
def assignedPointSpec (c : PointTest) (rng : Nat → Nat) (self : RedLines)
    (i : Nat) : Prop :=
  ∃ p : Int × Int,
    p ∈ samplePoints ∧
    c (toPoly (self.districts.getD i dummyDistrict).coordinates) p = true ∧
    p ∈ validPoints c (self.districts.getD i dummyDistrict) ∧
    (generateRandPoint c rng self).districts.getD i dummyDistrict
      = { self.districts.getD i dummyDistrict with
            randomLong := some p.1, randomLat := some p.2 } ∧
    (∀ j, j < (validPoints c (self.districts.getD i dummyDistrict)).length →
      ∃ rng2 : Nat → Nat,
        (generateRandPoint c rng2 self).districts.getD i dummyDistrict
          = { self.districts.getD i dummyDistrict with
                randomLong := some (((validPoints c
                  (self.districts.getD i dummyDistrict)).getD j (0, 0)).1),
                randomLat := some (((validPoints c
                  (self.districts.getD i dummyDistrict)).getD j (0, 0)).2) }) ∧
    (∀ (cresp : Nat → Int → Int → CensusResponse) (iresp : IncomeResponse)
        (f1 f2 : String),
      ((loadCache (cacheData (calcPopu (calcRank (fetchIncome
          (fetchCensus (generateRandPoint c rng self) cresp) iresp))) f1)
            f2).districts.getD i dummyDistrict).randomLong = some p.1 ∧
      ((loadCache (cacheData (calcPopu (calcRank (fetchIncome
          (fetchCensus (generateRandPoint c rng self) cresp) iresp))) f1)
            f2).districts.getD i dummyDistrict).randomLat = some p.2)

/-!
C1.  The docstring of fetchCensus (lines 210-214) instructs the fetch to
re-issue the request in a while loop until status 200 is observed, and the
claim states that behavior; the body (lines 223-236) issues exactly one
request per district and, on a non-200 status, simply moves on, leaving
censusTract unset even though a success response was available from the next
attempt on.  The code contradicts its own documentation, so this is recorded
as a code bug, witnessed by evaluating the code on the failing input below.
-/

/-- C1 (code bug evidence): for a district with a sampled point and a
response stream that fails once and then succeeds with a well-formed tract
payload, fetchCensus leaves censusTract unset and the catalog unchanged,
although a success (status 200, tract 163511100) was available from attempt
1 on — the retry-until-success behavior the claim describes would have set
it. -/
theorem fetchCensus_drops_failure_despite_later_success :
    ((fetchCensus ⟨[examplePointDistrict]⟩ flakyResponses).districts.getD 0
        dummyDistrict).censusTract = none ∧
    (fetchCensus ⟨[examplePointDistrict]⟩ flakyResponses).districts
      = [examplePointDistrict] ∧
    (flakyResponses 1 42300 (-83100)).status = 200 ∧
    censusExtract (flakyResponses 1 42300 (-83100)).body = some "163511100" :=
  ⟨rfl, rfl, rfl, rfl⟩

/-!
C3.  The derived color is a pure function of the grade, but the value the
source assigns to grade B is the string cornflowerblue (line 83), not blue.
-/

/-- C3 (counterexample): a district constructed with grade B and no color
argument gets holcColor cornflowerblue, which is not the string blue the
claim names. -/
theorem holcColor_grade_B_not_blue :
    (districtInit .pynone (.str "B") .pynone .pynone none none none none
        none).holcColor = "cornflowerblue" ∧
    (districtInit .pynone (.str "B") .pynone .pynone none none none none
        none).holcColor ≠ "blue" :=
  ⟨rfl, by decide⟩

/-- C3 (amended): for every district constructed without an explicit color
argument the derived color is the fixed pure function of the grade: grade A
yields darkgreen, B yields cornflowerblue, C yields gold, D yields maroon,
and any other grade yields the default grey. -/
theorem holcColor_fixed_mapping (coords id desc : PyVal) (g : PyVal)
    (hA : g ≠ .str "A") (hB : g ≠ .str "B") (hC : g ≠ .str "C")
    (hD : g ≠ .str "D") :
    (districtInit coords (.str "A") id desc none none none none
        none).holcColor = "darkgreen" ∧
    (districtInit coords (.str "B") id desc none none none none
        none).holcColor = "cornflowerblue" ∧
    (districtInit coords (.str "C") id desc none none none none
        none).holcColor = "gold" ∧
    (districtInit coords (.str "D") id desc none none none none
        none).holcColor = "maroon" ∧
    (districtInit coords g id desc none none none none none).holcColor
      = "grey" := by
  refine ⟨rfl, rfl, rfl, rfl, ?_⟩
  show colorMapGet g = "grey"
  cases g with
  | str s =>
    have hsA : s ≠ "A" := fun h => hA (by rw [h])
    have hsB : s ≠ "B" := fun h => hB (by rw [h])
    have hsC : s ≠ "C" := fun h => hC (by rw [h])
    have hsD : s ≠ "D" := fun h => hD (by rw [h])
    simp [colorMapGet, hsA, hsB, hsC, hsD]
  | pynone => rfl
  | num n => rfl
  | list xs => rfl
  | dict kvs => rfl

/-- C3 witness: the amended mapping evaluated with an unrecognized
(non-string) grade. -/
theorem holcColor_fixed_mapping_witness :
    (districtInit .pynone (.str "A") .pynone .pynone none none none none
        none).holcColor = "darkgreen" ∧
    (districtInit .pynone (.str "B") .pynone .pynone none none none none
        none).holcColor = "cornflowerblue" ∧
    (districtInit .pynone (.str "C") .pynone .pynone none none none none
        none).holcColor = "gold" ∧
    (districtInit .pynone (.str "D") .pynone .pynone none none none none
        none).holcColor = "maroon" ∧
    (districtInit .pynone (.num 7) .pynone .pynone none none none none
        none).holcColor = "grey" :=
  holcColor_fixed_mapping .pynone .pynone .pynone (.num 7)
    (fun h => nomatch h) (fun h => nomatch h) (fun h => nomatch h)
    (fun h => nomatch h)

/-!
C8.  On a non-success status the income lookup only prints a diagnostic and
returns, so the whole catalog state, every field of every district included,
is exactly what it was.
-/

/-- C8: on a non-success HTTP status from the batch income lookup,
fetchIncome leaves the catalog state unchanged: every district keeps its
prior medIncome (unset if never assigned) and every other field as well. -/
theorem fetchIncome_failure_leaves_state_unchanged (self : RedLines)
    (resp : IncomeResponse) (h : resp.status ≠ 200) :
    fetchIncome self resp = self := by
  unfold fetchIncome
  rw [if_neg h]

/-- C8 witness: a status-500 response leaves a one-district catalog equal to
itself. -/
theorem fetchIncome_failure_leaves_state_unchanged_witness :
    (500 : Nat) ≠ 200 ∧
    fetchIncome ⟨[examplePointDistrict]⟩ ⟨500, [["B19013_001E", "26", "163", "511100"]]⟩
      = ⟨[examplePointDistrict]⟩ :=
  ⟨by decide,
   fetchIncome_failure_leaves_state_unchanged ⟨[examplePointDistrict]⟩
     ⟨500, [["B19013_001E", "26", "163", "511100"]]⟩ (by decide)⟩

/-! Helper lemmas (not tied to a single claim). -/

/-- Positional lookup commutes with map on an index in bounds. -/
theorem getD_map {α β : Type} (f : α → β) (l : List α) (i : Nat) (da : α)
    (db : β) (hi : i < l.length) : (l.map f).getD i db = f (l.getD i da) := by
  induction l generalizing i with
  | nil => cases hi
  | cons a as ih =>
    cases i with
    | zero => rfl
    | succ n =>
      simp only [List.map_cons, List.getD_cons_succ]
      exact ih n (Nat.lt_of_succ_lt_succ hi)

/-!
C4.  The success path of fetchIncome: the tract-to-income dictionary is built
from every row after the header, sentinel rows normalized to 0, and every
district receives the income its tract maps to, 0 when the tract is absent
from the dictionary (an unset tract is never a key, so it also receives 0).
-/

/-- C4: given a successful batch income response, fetchIncome assigns every
district the mapped income of its census tract, assigns 0 to a district
whose tract is absent from the mapping (or unset), and maps a row whose
reported value is the no-data sentinel -666666666 to income 0. -/
theorem fetchIncome_assigns_mapped_income (self : RedLines)
    (resp : IncomeResponse) (hs : resp.status = 200) (i : Nat)
    (hi : i < self.districts.length) :
    (fetchIncome self resp).districts.length = self.districts.length ∧
    (∀ t v, (self.districts.getD i dummyDistrict).censusTract = some t →
      dictLookup (incomeMap resp.rows) t = some v →
      ((fetchIncome self resp).districts.getD i dummyDistrict).medIncome
        = some v) ∧
    (∀ t, (self.districts.getD i dummyDistrict).censusTract = some t →
      dictLookup (incomeMap resp.rows) t = none →
      ((fetchIncome self resp).districts.getD i dummyDistrict).medIncome
        = some 0) ∧
    ((self.districts.getD i dummyDistrict).censusTract = none →
      ((fetchIncome self resp).districts.getD i dummyDistrict).medIncome
        = some 0) ∧
    (∀ item, item ∈ resp.rows.drop 1 → item.getD 0 "" = "-666666666" →
      incomeEntry item = (item.getD 2 "" ++ item.getD 3 "", 0)) := by
  have hmap : (fetchIncome self resp).districts
      = self.districts.map (assignIncome (incomeMap resp.rows)) := by
    unfold fetchIncome
    rw [if_pos hs]
  refine ⟨?_, ?_, ?_, ?_, ?_⟩
  · rw [hmap, List.length_map]
  · intro t v ht hv
    simp only [hmap, getD_map _ _ i dummyDistrict dummyDistrict hi,
      assignIncome, ht, hv]
  · intro t ht hv
    simp only [hmap, getD_map _ _ i dummyDistrict dummyDistrict hi,
      assignIncome, ht, hv]
  · intro ht
    simp only [hmap, getD_map _ _ i dummyDistrict dummyDistrict hi,
      assignIncome, ht]
  · intro item hmem hsent
    unfold incomeEntry
    rw [hsent, if_pos rfl]

/-- C4 witness: the mapped, absent, unset and sentinel cases evaluated on
the concrete catalog and response. -/
theorem fetchIncome_assigns_mapped_income_witness :
    ((fetchIncome exampleIncomeCatalog exampleIncomeResponse).districts.getD 0
        dummyDistrict).medIncome = some 31250 ∧
    ((fetchIncome exampleIncomeCatalog exampleIncomeResponse).districts.getD 1
        dummyDistrict).medIncome = some 0 ∧
    ((fetchIncome exampleIncomeCatalog exampleIncomeResponse).districts.getD 2
        dummyDistrict).medIncome = some 0 ∧
    incomeEntry ["-666666666", "26", "165", "000100"]
      = (("-666666666" :: ["26", "165", "000100"]).getD 2 ""
          ++ (["-666666666", "26", "165", "000100"]).getD 3 "", 0) :=
  ⟨(fetchIncome_assigns_mapped_income exampleIncomeCatalog
      exampleIncomeResponse rfl 0 (by decide)).2.1 "163511100" 31250 rfl rfl,
   (fetchIncome_assigns_mapped_income exampleIncomeCatalog
      exampleIncomeResponse rfl 1 (by decide)).2.2.1 "999999999" rfl rfl,
   (fetchIncome_assigns_mapped_income exampleIncomeCatalog
      exampleIncomeResponse rfl 2 (by decide)).2.2.2.1 rfl,
   (fetchIncome_assigns_mapped_income exampleIncomeCatalog
      exampleIncomeResponse rfl 0 (by decide)).2.2.2.2
     ["-666666666", "26", "165", "000100"] (by decide) rfl⟩

/-! Lemmas about the sampler loop. -/

/-- The sampler loop keeps the number of districts. -/
theorem sampleLoop_length (c : PointTest) (rng : Nat → Nat) :
    ∀ (k : Nat) (ds : List DetroitDistrict),
      (sampleLoop c rng k ds).length = ds.length := by
  intro k ds
  induction ds generalizing k with
  | nil => rfl
  | cons d tl ih =>
    simp only [sampleLoop]
    split
    · split
      · simp [ih]
      · simp [ih]
    · simp [ih]

/-- Characterization of one district of the sampler output: either the
guards reject it and it is returned unchanged, or both guards accept it and
it is the assignment of the point selected by some draw. -/
theorem sampleLoop_getD (c : PointTest) (rng : Nat → Nat) :
    ∀ (ds : List DetroitDistrict) (k i : Nat), i < ds.length →
      (¬ (coordsOk (ds.getD i dummyDistrict).coordinates = true ∧
            0 < (validPoints c (ds.getD i dummyDistrict)).length) ∧
          (sampleLoop c rng k ds).getD i dummyDistrict
            = ds.getD i dummyDistrict) ∨
      (coordsOk (ds.getD i dummyDistrict).coordinates = true ∧
        0 < (validPoints c (ds.getD i dummyDistrict)).length ∧
        ∃ k', (sampleLoop c rng k ds).getD i dummyDistrict
          = assignPoint c (ds.getD i dummyDistrict) (rng k')) := by
  intro ds
  induction ds with
  | nil => intro k i hi; cases hi
  | cons d tl ih =>
    intro k i hi
    cases i with
    | zero =>
      by_cases hok : coordsOk d.coordinates = true
      · by_cases hlen : 0 < (validPoints c d).length
        · right
          refine ⟨hok, hlen, k, ?_⟩
          simp only [sampleLoop]
          rw [if_pos hok, if_pos hlen]
          rfl
        · left
          refine ⟨fun hcontra => hlen hcontra.2, ?_⟩
          simp only [sampleLoop]
          rw [if_pos hok, if_neg hlen]
          rfl
      · left
        refine ⟨fun hcontra => hok hcontra.1, ?_⟩
        simp only [sampleLoop]
        rw [if_neg hok]
        rfl
    | succ n =>
      have hn : n < tl.length := Nat.lt_of_succ_lt_succ hi
      by_cases hok : coordsOk d.coordinates = true
      · by_cases hlen : 0 < (validPoints c d).length
        · have h := ih (k + 1) n hn
          simp only [sampleLoop]
          rw [if_pos hok, if_pos hlen]
          simpa using h
        · have h := ih k n hn
          simp only [sampleLoop]
          rw [if_pos hok, if_neg hlen]
          simpa using h
      · have h := ih k n hn
        simp only [sampleLoop]
        rw [if_neg hok]
        simpa using h

/-!
C5.  A district whose polygon contains no candidate grid point: the size
guard of line 187 fails, so no assignment happens and no draw is consumed;
the loop simply continues with the remaining districts.  The embedded loop
is a total function, so no error is raised.
-/

/-- C5: for a district whose polygon contains no candidate grid point, the
sampler leaves the district exactly as it was (in particular randomLat and
randomLong stay None when they were None), consumes no random draw, and
still processes the remaining districts. -/
theorem generateRandPoint_silent_skip (c : PointTest) (rng : Nat → Nat)
    (k : Nat) (d : DetroitDistrict) (ds : List DetroitDistrict)
    (hok : coordsOk d.coordinates = true)
    (hempty : validPoints c d = []) :
    sampleLoop c rng k (d :: ds) = d :: sampleLoop c rng k ds ∧
    (generateRandPoint c rng ⟨d :: ds⟩).districts
      = d :: sampleLoop c rng 0 ds ∧
    (generateRandPoint c rng ⟨d :: ds⟩).districts.getD 0 dummyDistrict = d ∧
    (generateRandPoint c rng ⟨d :: ds⟩).districts.length
      = (d :: ds).length ∧
    (d.randomLat = none →
      ((generateRandPoint c rng ⟨d :: ds⟩).districts.getD 0
          dummyDistrict).randomLat = none) ∧
    (d.randomLong = none →
      ((generateRandPoint c rng ⟨d :: ds⟩).districts.getD 0
          dummyDistrict).randomLong = none) := by
  have hlen : ¬ 0 < (validPoints c d).length := by
    rw [hempty]
    exact Nat.lt_irrefl 0
  have hcons : ∀ k2, sampleLoop c rng k2 (d :: ds)
      = d :: sampleLoop c rng k2 ds := by
    intro k2
    simp only [sampleLoop]
    rw [if_pos hok, if_neg hlen]
  refine ⟨hcons k, ?_, ?_, ?_, ?_, ?_⟩
  · show sampleLoop c rng 0 (d :: ds) = _
    rw [hcons 0]
  · show (sampleLoop c rng 0 (d :: ds)).getD 0 dummyDistrict = d
    rw [hcons 0]
    rfl
  · show (sampleLoop c rng 0 (d :: ds)).length = _
    rw [sampleLoop_length]
  · intro h
    show ((sampleLoop c rng 0 (d :: ds)).getD 0 dummyDistrict).randomLat
      = none
    rw [hcons 0]
    exact h
  · intro h
    show ((sampleLoop c rng 0 (d :: ds)).getD 0 dummyDistrict).randomLong
      = none
    rw [hcons 0]
    exact h

/-- C5 witness: the silent skip evaluated for a district none of whose
points pass the (everywhere failing) point-in-polygon test. -/
theorem generateRandPoint_silent_skip_witness :
    sampleLoop alwaysOutside zeroDraws 0 (exampleSquare :: [])
      = exampleSquare :: sampleLoop alwaysOutside zeroDraws 0 [] ∧
    (generateRandPoint alwaysOutside zeroDraws ⟨exampleSquare :: []⟩).districts
      = exampleSquare :: sampleLoop alwaysOutside zeroDraws 0 [] ∧
    (generateRandPoint alwaysOutside zeroDraws
        ⟨exampleSquare :: []⟩).districts.getD 0 dummyDistrict
      = exampleSquare ∧
    (generateRandPoint alwaysOutside zeroDraws
        ⟨exampleSquare :: []⟩).districts.length
      = (exampleSquare :: []).length ∧
    (exampleSquare.randomLat = none →
      ((generateRandPoint alwaysOutside zeroDraws
          ⟨exampleSquare :: []⟩).districts.getD 0
            dummyDistrict).randomLat = none) ∧
    (exampleSquare.randomLong = none →
      ((generateRandPoint alwaysOutside zeroDraws
          ⟨exampleSquare :: []⟩).districts.getD 0
            dummyDistrict).randomLong = none) :=
  generateRandPoint_silent_skip alwaysOutside zeroDraws 0 exampleSquare []
    rfl (by simp [validPoints, alwaysOutside, List.filter_false])

/-!
C10.  The sampler loop either skips a district wholesale (shape guard or
empty interior) or replaces exactly the randomLong and randomLat fields; no
other field of any district is ever written.
-/

/-- C10: a district whose coordinates attribute fails the shape guard is
left entirely unchanged by generateRandPoint, and every district, processed
or not, keeps its coordinates, holcGrade, holcColor, id, description,
medIncome and censusTract. -/
theorem generateRandPoint_frame (c : PointTest) (rng : Nat → Nat)
    (self : RedLines) (i : Nat) (hi : i < self.districts.length) :
    (coordsOk ((self.districts.getD i dummyDistrict).coordinates) = false →
      (generateRandPoint c rng self).districts.getD i dummyDistrict
        = self.districts.getD i dummyDistrict) ∧
    ((generateRandPoint c rng self).districts.getD i
        dummyDistrict).coordinates
      = (self.districts.getD i dummyDistrict).coordinates ∧
    ((generateRandPoint c rng self).districts.getD i
        dummyDistrict).holcGrade
      = (self.districts.getD i dummyDistrict).holcGrade ∧
    ((generateRandPoint c rng self).districts.getD i
        dummyDistrict).holcColor
      = (self.districts.getD i dummyDistrict).holcColor ∧
    ((generateRandPoint c rng self).districts.getD i dummyDistrict).id
      = (self.districts.getD i dummyDistrict).id ∧
    ((generateRandPoint c rng self).districts.getD i
        dummyDistrict).description
      = (self.districts.getD i dummyDistrict).description ∧
    ((generateRandPoint c rng self).districts.getD i
        dummyDistrict).medIncome
      = (self.districts.getD i dummyDistrict).medIncome ∧
    ((generateRandPoint c rng self).districts.getD i
        dummyDistrict).censusTract
      = (self.districts.getD i dummyDistrict).censusTract := by
  rcases sampleLoop_getD c rng self.districts 0 i hi with
    ⟨hno, heq⟩ | ⟨hok, hlen, k', heq⟩
  · have hg : (generateRandPoint c rng self).districts.getD i dummyDistrict
        = self.districts.getD i dummyDistrict := heq
    exact ⟨fun _ => hg, by rw [hg], by rw [hg], by rw [hg], by rw [hg],
      by rw [hg], by rw [hg], by rw [hg]⟩
  · have hg : (generateRandPoint c rng self).districts.getD i dummyDistrict
        = assignPoint c (self.districts.getD i dummyDistrict) (rng k') := heq
    refine ⟨?_, ?_, ?_, ?_, ?_, ?_, ?_, ?_⟩
    · intro hfalse
      rw [hok] at hfalse
      exact absurd hfalse (by decide)
    all_goals rw [hg]; rfl

/-- C10 witness: a district whose coordinates attribute is None is skipped
wholesale; its neighbor is processed and keeps all its non-point fields. -/
theorem generateRandPoint_frame_witness :
    (coordsOk (((⟨[exampleBadCoords]⟩ : RedLines).districts.getD 0
          dummyDistrict).coordinates) = false →
      (generateRandPoint alwaysInside zeroDraws
          ⟨[exampleBadCoords]⟩).districts.getD 0 dummyDistrict
        = (⟨[exampleBadCoords]⟩ : RedLines).districts.getD 0 dummyDistrict) ∧
    ((generateRandPoint alwaysInside zeroDraws
        ⟨[exampleBadCoords]⟩).districts.getD 0 dummyDistrict).coordinates
      = ((⟨[exampleBadCoords]⟩ : RedLines).districts.getD 0
          dummyDistrict).coordinates ∧
    ((generateRandPoint alwaysInside zeroDraws
        ⟨[exampleBadCoords]⟩).districts.getD 0 dummyDistrict).holcGrade
      = ((⟨[exampleBadCoords]⟩ : RedLines).districts.getD 0
          dummyDistrict).holcGrade ∧
    ((generateRandPoint alwaysInside zeroDraws
        ⟨[exampleBadCoords]⟩).districts.getD 0 dummyDistrict).holcColor
      = ((⟨[exampleBadCoords]⟩ : RedLines).districts.getD 0
          dummyDistrict).holcColor ∧
    ((generateRandPoint alwaysInside zeroDraws
        ⟨[exampleBadCoords]⟩).districts.getD 0 dummyDistrict).id
      = ((⟨[exampleBadCoords]⟩ : RedLines).districts.getD 0
          dummyDistrict).id ∧
    ((generateRandPoint alwaysInside zeroDraws
        ⟨[exampleBadCoords]⟩).districts.getD 0 dummyDistrict).description
      = ((⟨[exampleBadCoords]⟩ : RedLines).districts.getD 0
          dummyDistrict).description ∧
    ((generateRandPoint alwaysInside zeroDraws
        ⟨[exampleBadCoords]⟩).districts.getD 0 dummyDistrict).medIncome
      = ((⟨[exampleBadCoords]⟩ : RedLines).districts.getD 0
          dummyDistrict).medIncome ∧
    ((generateRandPoint alwaysInside zeroDraws
        ⟨[exampleBadCoords]⟩).districts.getD 0 dummyDistrict).censusTract
      = ((⟨[exampleBadCoords]⟩ : RedLines).districts.getD 0
          dummyDistrict).censusTract :=
  generateRandPoint_frame alwaysInside zeroDraws ⟨[exampleBadCoords]⟩ 0
    (by decide)

/-- Positional lookup past the end of a list yields the default. -/
theorem getD_of_le {α : Type} (l : List α) (n : Nat) (d : α)
    (h : l.length ≤ n) : l.getD n d = d := by
  rw [List.getD_eq_get?, List.get?_eq_none.mpr h]
  rfl

/-- The tract-enrichment loop never writes randomLat or randomLong. -/
theorem fetchCensusLoop_keeps_point
    (responses : Nat → Int → Int → CensusResponse) :
    ∀ (ds : List DetroitDistrict) (k i : Nat),
      (((fetchCensusLoop responses k ds).getD i dummyDistrict).randomLat
        = (ds.getD i dummyDistrict).randomLat) ∧
      (((fetchCensusLoop responses k ds).getD i dummyDistrict).randomLong
        = (ds.getD i dummyDistrict).randomLong) := by
  intro ds
  induction ds with
  | nil => intro k i; exact ⟨rfl, rfl⟩
  | cons d tl ih =>
    intro k i
    obtain ⟨coo, hgr, hid, hde, hco, rla, rlo, hmi, hct⟩ := d
    cases i with
    | zero =>
      cases rla with
      | none => exact ⟨rfl, rfl⟩
      | some la =>
        cases rlo with
        | none => exact ⟨rfl, rfl⟩
        | some lo =>
          constructor
          · simp only [fetchCensusLoop, List.getD_cons_zero]
            split
            · split <;> rfl
            · rfl
          · simp only [fetchCensusLoop, List.getD_cons_zero]
            split
            · split <;> rfl
            · rfl
    | succ n =>
      cases rla with
      | none =>
        simp only [fetchCensusLoop, List.getD_cons_succ]
        exact ih k n
      | some la =>
        cases rlo with
        | none =>
          simp only [fetchCensusLoop, List.getD_cons_succ]
          exact ih k n
        | some lo =>
          simp only [fetchCensusLoop, List.getD_cons_succ]
          exact ih (k + 1) n

/-- The income assignment never writes randomLat or randomLong. -/
theorem assignIncome_keeps_point (m : List (String × Int))
    (d : DetroitDistrict) :
    ((assignIncome m d).randomLat = d.randomLat) ∧
    ((assignIncome m d).randomLong = d.randomLong) := by
  cases hct : d.censusTract with
  | none => simp [assignIncome, hct]
  | some t =>
    cases hv : dictLookup m t with
    | none => simp [assignIncome, hct, hv]
    | some v => simp [assignIncome, hct, hv]

/-- The income enrichment never writes randomLat or randomLong. -/
theorem fetchIncome_keeps_point (self : RedLines) (resp : IncomeResponse)
    (i : Nat) :
    (((fetchIncome self resp).districts.getD i dummyDistrict).randomLat
      = (self.districts.getD i dummyDistrict).randomLat) ∧
    (((fetchIncome self resp).districts.getD i dummyDistrict).randomLong
      = (self.districts.getD i dummyDistrict).randomLong) := by
  by_cases hs : resp.status = 200
  · have hmap : (fetchIncome self resp).districts
        = self.districts.map (assignIncome (incomeMap resp.rows)) := by
      unfold fetchIncome
      rw [if_pos hs]
    by_cases hi : i < self.districts.length
    · rw [hmap, getD_map _ _ i dummyDistrict dummyDistrict hi]
      exact assignIncome_keeps_point _ _
    · have h1 : (self.districts.map
          (assignIncome (incomeMap resp.rows))).getD i dummyDistrict
          = dummyDistrict := by
        apply getD_of_le
        rw [List.length_map]
        exact Nat.le_of_not_lt hi
      have h2 : self.districts.getD i dummyDistrict = dummyDistrict :=
        getD_of_le _ _ _ (Nat.le_of_not_lt hi)
      rw [hmap, h1, h2]
      exact ⟨rfl, rfl⟩
  · unfold fetchIncome
    rw [if_neg hs]
    exact ⟨rfl, rfl⟩

/-!
C2.  When both guards of the sampler accept a district, the assigned point
is the element of valid_points (the grid points passing the point-in-polygon
test, in grid order) selected by the consumed draw; every element of
valid_points is attainable by some draw stream; and no later catalog
operation writes randomLat or randomLong, so the containment invariant
persists.
-/

/-- C2: for every district to which the sampler assigns a point, that point
is a fixed candidate grid point lying strictly inside the district polygon
(the point-in-polygon test passes for it), it is the draw-selected element
of the list of all interior grid points with every element attainable, and
the assignment survives every subsequent operation of the catalog. -/
theorem generateRandPoint_assigns_interior_grid_point (c : PointTest)
    (rng : Nat → Nat) (self : RedLines) (i : Nat)
    (hi : i < self.districts.length)
    (hok : coordsOk ((self.districts.getD i dummyDistrict).coordinates)
      = true)
    (hne : validPoints c (self.districts.getD i dummyDistrict) ≠ []) :
    assignedPointSpec c rng self i := by
  have hlen : 0 < (validPoints c (self.districts.getD i
      dummyDistrict)).length := List.length_pos.mpr hne
  rcases sampleLoop_getD c rng self.districts 0 i hi with
    ⟨hno, _⟩ | ⟨_, _, k', heq⟩
  · exact absurd ⟨hok, hlen⟩ hno
  · have hidx : rng k' % (validPoints c (self.districts.getD i
        dummyDistrict)).length
        < (validPoints c (self.districts.getD i dummyDistrict)).length :=
      Nat.mod_lt _ hlen
    have hpg : pickPoint (validPoints c (self.districts.getD i
        dummyDistrict)) (rng k')
        = (validPoints c (self.districts.getD i dummyDistrict)).get
            ⟨rng k' % (validPoints c (self.districts.getD i
                dummyDistrict)).length, hidx⟩ := by
      unfold pickPoint
      rw [List.getD_eq_get?, List.get?_eq_get hidx]
      rfl
    have hpmem : pickPoint (validPoints c (self.districts.getD i
        dummyDistrict)) (rng k')
        ∈ validPoints c (self.districts.getD i dummyDistrict) := by
      rw [hpg]
      exact List.get_mem _ _ _
    have hfilter := List.mem_filter.mp hpmem
    refine ⟨pickPoint (validPoints c (self.districts.getD i dummyDistrict))
      (rng k'), hfilter.1, hfilter.2, hpmem, ?_, ?_, ?_⟩
    · show (sampleLoop c rng 0 self.districts).getD i dummyDistrict = _
      rw [heq]
      rfl
    · intro j hj
      refine ⟨fun _ => j, ?_⟩
      rcases sampleLoop_getD c (fun _ => j) self.districts 0 i hi with
        ⟨hno2, _⟩ | ⟨_, _, k2, heq2⟩
      · exact absurd ⟨hok, hlen⟩ hno2
      · show (sampleLoop c (fun _ => j) 0 self.districts).getD i
          dummyDistrict = _
        rw [heq2]
        simp only [assignPoint, pickPoint, Nat.mod_eq_of_lt hj]
    · intro cresp iresp f1 f2
      have hpoint : ((generateRandPoint c rng self).districts.getD i
            dummyDistrict).randomLong
            = some (pickPoint (validPoints c (self.districts.getD i
                dummyDistrict)) (rng k')).1
          ∧ ((generateRandPoint c rng self).districts.getD i
            dummyDistrict).randomLat
            = some (pickPoint (validPoints c (self.districts.getD i
                dummyDistrict)) (rng k')).2 := by
        constructor
        · show ((sampleLoop c rng 0 self.districts).getD i
            dummyDistrict).randomLong = _
          rw [heq]
          rfl
        · show ((sampleLoop c rng 0 self.districts).getD i
            dummyDistrict).randomLat = _
          rw [heq]
          rfl
      have hcensus := fetchCensusLoop_keeps_point cresp
        (generateRandPoint c rng self).districts 0 i
      have hincome := fetchIncome_keeps_point
        (fetchCensus (generateRandPoint c rng self) cresp) iresp i
      constructor
      · calc ((loadCache (cacheData (calcPopu (calcRank (fetchIncome
              (fetchCensus (generateRandPoint c rng self) cresp) iresp)))
                f1) f2).districts.getD i dummyDistrict).randomLong
            = ((fetchCensus (generateRandPoint c rng self)
                cresp).districts.getD i dummyDistrict).randomLong :=
              hincome.2
          _ = ((generateRandPoint c rng self).districts.getD i
                dummyDistrict).randomLong := hcensus.2
          _ = _ := hpoint.1
      · calc ((loadCache (cacheData (calcPopu (calcRank (fetchIncome
              (fetchCensus (generateRandPoint c rng self) cresp) iresp)))
                f1) f2).districts.getD i dummyDistrict).randomLat
            = ((fetchCensus (generateRandPoint c rng self)
                cresp).districts.getD i dummyDistrict).randomLat :=
              hincome.1
          _ = ((generateRandPoint c rng self).districts.getD i
                dummyDistrict).randomLat := hcensus.1
          _ = _ := hpoint.2

/-- C2 witness: the sampler claim evaluated for a district whose polygon
test accepts every grid point. -/
theorem generateRandPoint_assigns_interior_grid_point_witness :
    assignedPointSpec alwaysInside zeroDraws ⟨[exampleTriangle]⟩ 0 :=
  generateRandPoint_assigns_interior_grid_point alwaysInside zeroDraws
    ⟨[exampleTriangle]⟩ 0 (by decide) rfl (by decide)

/-- The sampler loop function is a run of the execution relation. -/
theorem sampleLoop_sound (c : PointTest) (rng : Nat → Nat) :
    ∀ (ds : List DetroitDistrict) (k : Nat),
      SampleR c rng k ds (sampleLoop c rng k ds) := by
  intro ds
  induction ds with
  | nil => intro k; exact SampleR.nil k
  | cons d tl ih =>
    intro k
    by_cases hok : coordsOk d.coordinates = true
    · by_cases hlen : 0 < (validPoints c d).length
      · have hne : validPoints c d ≠ [] := by
          intro h
          rw [h] at hlen
          exact Nat.lt_irrefl 0 hlen
        have hstep : sampleLoop c rng k (d :: tl)
            = assignPoint c d (rng k) :: sampleLoop c rng (k + 1) tl := by
          simp only [sampleLoop]
          rw [if_pos hok, if_pos hlen]
        rw [hstep]
        exact SampleR.assign k d tl _ hok hne (ih (k + 1))
      · have hemp : validPoints c d = [] :=
          List.length_eq_zero.mp (Nat.eq_zero_of_not_pos hlen)
        have hstep : sampleLoop c rng k (d :: tl)
            = d :: sampleLoop c rng k tl := by
          simp only [sampleLoop]
          rw [if_pos hok, if_neg hlen]
        rw [hstep]
        exact SampleR.skipEmpty k d tl _ hok hemp (ih k)
    · have hok' : coordsOk d.coordinates = false := by
        revert hok
        cases coordsOk d.coordinates <;> simp
      have hstep : sampleLoop c rng k (d :: tl)
          = d :: sampleLoop c rng k tl := by
        simp only [sampleLoop]
        rw [if_neg hok]
      rw [hstep]
      exact SampleR.skipShape k d tl _ hok' (ih k)

/-!
C6.  Determinism of the sampler: the execution relation of the loop admits
exactly one output for a given draw stream, draw position and district list,
and generateRandPoint produces a run of that relation.  Two runs from the
same seed see the same draw stream, hence assign identical sampled points to
every district.
-/

/-- C6: the sampler is deterministic: any two runs of the generateRandPoint
loop from the same draw stream (the stream a fixed seed determines), the
same candidate grid and the same districts produce equal outputs, and the
output of generateRandPoint is such a run. -/
theorem sampler_deterministic (c : PointTest) (rng : Nat → Nat) :
    (∀ (k : Nat) (ds out1 out2 : List DetroitDistrict),
      SampleR c rng k ds out1 → SampleR c rng k ds out2 → out1 = out2) ∧
    (∀ self : RedLines,
      SampleR c rng 0 self.districts
        (generateRandPoint c rng self).districts) := by
  constructor
  · intro k ds out1 out2 h1 h2
    induction h1 generalizing out2 with
    | nil k => cases h2; rfl
    | skipShape k d ds out hok h ih =>
      cases h2 with
      | skipShape _ _ _ out2' hok2 h2' => rw [ih out2' h2']
      | skipEmpty _ _ _ out2' hok2 hemp2 h2' =>
        rw [hok] at hok2
        exact absurd hok2 (by decide)
      | assign _ _ _ out2' hok2 hne2 h2' =>
        rw [hok] at hok2
        exact absurd hok2 (by decide)
    | skipEmpty k d ds out hok hemp h ih =>
      cases h2 with
      | skipShape _ _ _ out2' hok2 h2' =>
        rw [hok2] at hok
        exact absurd hok (by decide)
      | skipEmpty _ _ _ out2' hok2 hemp2 h2' => rw [ih out2' h2']
      | assign _ _ _ out2' hok2 hne2 h2' => exact absurd hemp hne2
    | assign k d ds out hok hne h ih =>
      cases h2 with
      | skipShape _ _ _ out2' hok2 h2' =>
        rw [hok2] at hok
        exact absurd hok (by decide)
      | skipEmpty _ _ _ out2' hok2 hemp2 h2' => exact absurd hemp2 hne
      | assign _ _ _ out2' hok2 hne2 h2' => rw [ih out2' h2']
  · intro self
    exact sampleLoop_sound c rng self.districts 0

/-- C6 witness: the determinism statement applied to two concrete runs over
a one-district catalog, and the run of generateRandPoint itself. -/
theorem sampler_deterministic_witness :
    (exampleBadCoords :: [] : List DetroitDistrict)
      = (exampleBadCoords :: [] : List DetroitDistrict) ∧
    SampleR alwaysInside zeroDraws 0 (⟨[exampleBadCoords]⟩ : RedLines).districts
      (generateRandPoint alwaysInside zeroDraws
        ⟨[exampleBadCoords]⟩).districts :=
  ⟨(sampler_deterministic alwaysInside zeroDraws).1 0 [exampleBadCoords]
      (exampleBadCoords :: []) (exampleBadCoords :: [])
      (SampleR.skipShape 0 exampleBadCoords [] [] rfl (SampleR.nil 0))
      (SampleR.skipShape 0 exampleBadCoords [] [] rfl (SampleR.nil 0)),
   (sampler_deterministic alwaysInside zeroDraws).2 ⟨[exampleBadCoords]⟩⟩

/-! Lemmas about the createDistricts loop. -/

/-- When every feature parses, the loop appends all parsed districts and
reports no exception. -/
theorem createLoop_all_ok :
    ∀ (fs : List PyVal) (ds acc : List DetroitDistrict),
      parseOks fs = some ds → createLoop acc fs = (acc ++ ds, none) := by
  intro fs
  induction fs with
  | nil =>
    intro ds acc h
    simp only [parseOks, Option.some.injEq] at h
    subst h
    simp [createLoop]
  | cons f tl ih =>
    intro ds acc h
    simp only [parseOks] at h
    cases hp : parseFeature f with
    | error e =>
      rw [hp] at h
      simp at h
    | ok d =>
      rw [hp] at h
      cases htl : parseOks tl with
      | none =>
        rw [htl] at h
        simp at h
      | some ds' =>
        rw [htl] at h
        have h2 : d :: ds' = ds := by simpa using h
        subst h2
        simp only [createLoop]
        rw [hp]
        show createLoop (acc ++ [d]) tl = (acc ++ d :: ds', none)
        rw [ih ds' (acc ++ [d]) htl]
        simp

/-- When a prefix parses and then a feature fails, the loop stops there,
keeping exactly the districts of the prefix appended, and reports the
exception of the failing feature. -/
theorem createLoop_stops :
    ∀ (fs1 : List PyVal) (ds1 acc : List DetroitDistrict) (f : PyVal)
      (e : PyErr) (fs2 : List PyVal),
      parseOks fs1 = some ds1 → parseFeature f = .error e →
      createLoop acc (fs1 ++ f :: fs2) = (acc ++ ds1, some e) := by
  intro fs1
  induction fs1 with
  | nil =>
    intro ds1 acc f e fs2 h hf
    simp only [parseOks, Option.some.injEq] at h
    subst h
    simp only [List.nil_append, createLoop]
    rw [hf]
    simp
  | cons g tl ih =>
    intro ds1 acc f e fs2 h hf
    simp only [parseOks] at h
    cases hp : parseFeature g with
    | error e2 =>
      rw [hp] at h
      simp at h
    | ok d =>
      rw [hp] at h
      cases htl : parseOks tl with
      | none =>
        rw [htl] at h
        simp at h
      | some ds' =>
        rw [htl] at h
        have h2 : d :: ds' = ds1 := by simpa using h
        subst h2
        show createLoop acc ((g :: tl) ++ f :: fs2) = _
        simp only [List.cons_append, createLoop]
        rw [hp]
        show createLoop (acc ++ [d]) (tl ++ f :: fs2)
          = (acc ++ d :: ds', some e)
        rw [ih ds' (acc ++ [d]) f e fs2 htl hf]
        simp

/-- When some feature of the list fails to parse, the loop reports an
exception. -/
theorem createLoop_isSome :
    ∀ (fs : List PyVal) (acc : List DetroitDistrict) (f : PyVal) (e : PyErr),
      f ∈ fs → parseFeature f = .error e →
      ((createLoop acc fs).2).isSome = true := by
  intro fs
  induction fs with
  | nil => intro acc f e hmem _; cases hmem
  | cons g tl ih =>
    intro acc f e hmem hf
    simp only [createLoop]
    cases hp : parseFeature g with
    | error e2 => rfl
    | ok d =>
      rcases List.mem_cons.mp hmem with rfl | hmem2
      · rw [hp] at hf
        exact Except.noConfusion hf
      · exact ih (acc ++ [d]) f e hmem2 hf

/-- Every district the loop returns was in the accumulator or is the result
of one fully successful feature parse: no partial record appears. -/
theorem createLoop_mem :
    ∀ (fs : List PyVal) (acc : List DetroitDistrict) (d : DetroitDistrict),
      d ∈ (createLoop acc fs).1 →
      d ∈ acc ∨ ∃ f, f ∈ fs ∧ parseFeature f = .ok d := by
  intro fs
  induction fs with
  | nil => intro acc d h; exact Or.inl h
  | cons g tl ih =>
    intro acc d h
    revert h
    simp only [createLoop]
    cases hp : parseFeature g with
    | error e =>
      intro h
      exact Or.inl h
    | ok dd =>
      intro h
      rcases ih (acc ++ [dd]) d h with hacc | ⟨f, hf, hokp⟩
      · rcases List.mem_append.mp hacc with h1 | h2
        · exact Or.inl h1
        · have hd : d = dd := by simpa using h2
          subst hd
          exact Or.inr ⟨g, List.mem_cons_self g tl, hp⟩
      · exact Or.inr ⟨f, List.mem_cons_of_mem g hf, hokp⟩

/-!
C7.  Any load failure — absent file, invalid JSON, missing features key, or
a feature lacking a required property key — propagates as an exception, and
the catalog never contains a partially constructed record: the district of
the failing feature is not built, because the constructor is only called
after every key lookup succeeded.
-/

/-- C7: load fails by propagating an exception whenever the input file is
absent, is not valid JSON, or a feature lacks a required key, and no
silently partial record is produced: every district in the resulting
catalog was either already there or is the result of a fully successful
feature parse. -/
theorem createDistricts_propagates_failure (self : RedLines)
    (file : Except PyErr PyVal) (h : loadMalformed file) :
    ((createDistricts self file).2).isSome = true ∧
    (∀ d, d ∈ (createDistricts self file).1.districts →
      d ∈ self.districts ∨
        ∃ f, f ∈ featuresOf file ∧ parseFeature f = .ok d) := by
  rcases h with ⟨e, rfl⟩ | ⟨data, e, rfl, hfe⟩ |
    ⟨data, fs, rfl, hfe, f, hmem, e, herr⟩
  · exact ⟨rfl, fun d hd => Or.inl hd⟩
  · constructor
    · simp only [createDistricts]
      rw [hfe]
      rfl
    · intro d hd
      left
      revert hd
      simp only [createDistricts]
      rw [hfe]
      exact fun hd => hd
  · constructor
    · simp only [createDistricts]
      rw [hfe]
      show ((createLoop self.districts fs).2).isSome = true
      exact createLoop_isSome fs self.districts f e hmem herr
    · intro d hd
      have hd' : d ∈ (createLoop self.districts fs).1 := by
        revert hd
        simp only [createDistricts]
        rw [hfe]
        exact fun hd => hd
      rcases createLoop_mem fs self.districts d hd' with h1 | ⟨g, hg, hokp⟩
      · exact Or.inl h1
      · right
        refine ⟨g, ?_, hokp⟩
        simp only [featuresOf]
        rw [hfe]
        exact hg

/-- C7 witness: a file whose second feature lacks the holc_grade key makes
the load report an exception, with every loaded district coming from a
fully parsed feature. -/
theorem createDistricts_propagates_failure_witness :
    ((createDistricts ⟨[]⟩ exampleFile).2).isSome = true ∧
    (∀ d, d ∈ (createDistricts ⟨[]⟩ exampleFile).1.districts →
      d ∈ (⟨[]⟩ : RedLines).districts ∨
        ∃ f, f ∈ featuresOf exampleFile ∧ parseFeature f = .ok d) :=
  createDistricts_propagates_failure ⟨[]⟩ exampleFile
    (Or.inr (Or.inr ⟨.dict [("features",
        .list [exampleGoodFeature, exampleBadFeature])],
      [exampleGoodFeature, exampleBadFeature], rfl, rfl, exampleBadFeature,
      List.mem_cons_of_mem _ (List.mem_cons_self _ _),
      .keyError "holc_grade", rfl⟩))

/-!
C9.  createDistricts is not atomic and appends rather than replaces: a
failure at the k-th feature leaves the k-1 previously parsed districts
appended to the existing list, and loading the same well-formed file twice
doubles the list.
-/

/-- C9: when the k-th feature is the first malformed one, the propagated
exception leaves the previously parsed districts appended to the existing
catalog (no rollback); and a second successful load of the same file
appends the parsed districts again, doubling them instead of reloading. -/
theorem createDistricts_appends_without_rollback :
    (∀ (self : RedLines) (data : PyVal) (fs1 : List PyVal) (f : PyVal)
        (fs2 : List PyVal) (ds1 : List DetroitDistrict) (e : PyErr),
      data.getItem "features" = .ok (.list (fs1 ++ f :: fs2)) →
      parseOks fs1 = some ds1 → parseFeature f = .error e →
      createDistricts self (.ok data)
        = (⟨self.districts ++ ds1⟩, some e)) ∧
    (∀ (self : RedLines) (data : PyVal) (fs : List PyVal)
        (ds : List DetroitDistrict),
      data.getItem "features" = .ok (.list fs) → parseOks fs = some ds →
      createDistricts (createDistricts self (.ok data)).1 (.ok data)
        = (⟨(self.districts ++ ds) ++ ds⟩, none)) := by
  constructor
  · intro self data fs1 f fs2 ds1 e hfe h1 hf
    simp only [createDistricts]
    rw [hfe]
    show ((⟨(createLoop self.districts (fs1 ++ f :: fs2)).1⟩ : RedLines),
      (createLoop self.districts (fs1 ++ f :: fs2)).2) = _
    rw [createLoop_stops fs1 ds1 self.districts f e fs2 h1 hf]
  · intro self data fs ds hfe hall
    have h1 : createDistricts self (.ok data)
        = (⟨self.districts ++ ds⟩, none) := by
      simp only [createDistricts]
      rw [hfe]
      show ((⟨(createLoop self.districts fs).1⟩ : RedLines),
        (createLoop self.districts fs).2) = _
      rw [createLoop_all_ok fs ds self.districts hall]
    rw [h1]
    simp only [createDistricts]
    rw [hfe]
    show ((⟨(createLoop (self.districts ++ ds) fs).1⟩ : RedLines),
      (createLoop (self.districts ++ ds) fs).2) = _
    rw [createLoop_all_ok fs ds (self.districts ++ ds) hall]

/-- C9 witness: the partial append after a failure at the second feature,
and the doubling of the list after loading the same one-feature file
twice. -/
theorem createDistricts_appends_without_rollback_witness :
    createDistricts ⟨[]⟩ (.ok (.dict [("features",
        .list [exampleGoodFeature, exampleBadFeature])]))
      = (⟨([] : List DetroitDistrict) ++ [exampleGoodDistrict]⟩,
         some (.keyError "holc_grade")) ∧
    createDistricts (createDistricts ⟨[]⟩ (.ok (.dict [("features",
        .list [exampleGoodFeature])]))).1
      (.ok (.dict [("features", .list [exampleGoodFeature])]))
      = (⟨(([] : List DetroitDistrict) ++ [exampleGoodDistrict])
          ++ [exampleGoodDistrict]⟩, none) :=
  ⟨createDistricts_appends_without_rollback.1 ⟨[]⟩
      (.dict [("features", .list [exampleGoodFeature, exampleBadFeature])])
      [exampleGoodFeature] exampleBadFeature [] [exampleGoodDistrict]
      (.keyError "holc_grade") rfl rfl rfl,
   createDistricts_appends_without_rollback.2 ⟨[]⟩
      (.dict [("features", .list [exampleGoodFeature])])
      [exampleGoodFeature] [exampleGoodDistrict] rfl rfl⟩

end RedLining
